import Mathlib

/-!
Verification development for the synchronization primitive layer in
`c_src/fine/sync.hpp`: owning wrappers (`Mutex`, `SharedMutex`,
`ConditionVariable`) around the host runtime (Erlang NIF) native mutex,
read-write lock and condition variable.

The embedding is shallow: a raw native pointer is `Ptr := Option Nat`
(`none` models a null pointer), each wrapper structure holds exactly the
fields of the corresponding C++ class (a single `std::unique_ptr`-style
nullable handle), the host runtime entry points (`enif_mutex_create`,
`enif_mutex_lock`, ...) are modelled as parameters, and every wrapper
operation is translated from its source body: it reports the host calls it
issued as an explicit `List HostCall` event trace together with the result
and the successor wrapper state.  Fallible constructors (which throw
`std::runtime_error` in the source) return `Except String`.
-/

namespace Fine

/-- A raw native pointer handle. `none` models a null pointer
(`nullptr` in the source); `some h` models a valid non-null handle. -/
abbrev Ptr := Option Nat

/-- The host runtime entry points that the wrappers may invoke on a handle,
recorded as trace events.  Each constructor carries the raw pointer
argument(s) passed by the wrapper. -/
inductive HostCall where
  | mutex_lock : Ptr → HostCall
  | mutex_unlock : Ptr → HostCall
  | mutex_trylock : Ptr → HostCall
  | mutex_destroy : Ptr → HostCall
  | rwlock_rlock : Ptr → HostCall
  | rwlock_runlock : Ptr → HostCall
  | rwlock_rwlock : Ptr → HostCall
  | rwlock_rwunlock : Ptr → HostCall
  | rwlock_tryrlock : Ptr → HostCall
  | rwlock_tryrwlock : Ptr → HostCall
  | rwlock_destroy : Ptr → HostCall
  | cond_broadcast : Ptr → HostCall
  | cond_signal : Ptr → HostCall
  | cond_wait : Ptr → Ptr → HostCall
  | cond_destroy : Ptr → HostCall
deriving DecidableEq, Repr

/-- Return codes of the host calls (the `int` returned by the `try` entry
points; `0` means the lock was acquired).  A concrete host behaviour is a
function from the call to its return code. -/
abbrev HostRet := HostCall → Int

/-- Did an `Except`-returning constructor report an error? -/
def reportsError {α : Type} : Except String α → Bool
  | Except.error _ => true
  | Except.ok _ => false

/-! ## Mutex (`class Mutex`, sync.hpp lines 22-94) -/

/-- The wrapper state of `class Mutex`: its only data member is
`std::unique_ptr<ErlNifMutex, Deleter> m_handle`. -/
structure Mutex where
  m_handle : Ptr
deriving DecidableEq, Repr

/-- The debug identifier built by the named constructor
(`Mutex(app, type, instance)`, lines 35-44): a `std::stringstream` is
written `app`, then `"."`, then `type`, and, when `instance` is present,
`"["`, `*instance`, `"]"`; the accumulated string is the name passed to
`enif_mutex_create`. -/
def mkStreamName (app ty : String) (inst : Option String) : String :=
  let stream : String := ""
  let stream := stream ++ app
  let stream := stream ++ "."
  let stream := stream ++ ty
  match inst with
  | some i => ((stream ++ "[") ++ i) ++ "]"
  | none => stream

/-- `Mutex::Mutex()` (lines 25-29): calls `enif_mutex_create(nullptr)`;
throws `"failed to create mutex"` when the returned handle is null,
otherwise stores the handle.  `create` models `enif_mutex_create`, taking
the name argument (`none` models `nullptr`). -/
def Mutex.mk_unnamed (create : Option String → Ptr) : Except String Mutex :=
  match create none with
  | none => Except.error "failed to create mutex"
  | some h => Except.ok ⟨some h⟩

/-- `Mutex::Mutex(ErlNifMutex*)` (line 32): adopts the given handle with no
null check and cannot fail. -/
def Mutex.fromHandle (h : Ptr) : Mutex := ⟨h⟩

/-- `Mutex::Mutex(app, type, instance)` (lines 35-54): builds the debug
name with a string stream, calls `enif_mutex_create` on it, throws
`"failed to create mutex"` when the returned handle is null, otherwise
stores the handle. -/
def Mutex.mk_named (create : Option String → Ptr) (app ty : String)
    (inst : Option String) : Except String Mutex :=
  match create (some (mkStreamName app ty inst)) with
  | none => Except.error "failed to create mutex"
  | some h => Except.ok ⟨some h⟩

/-- `operator ErlNifMutex*() const &` (line 59): yields the raw handle,
ownership retained. -/
def Mutex.toHandle (m : Mutex) : Ptr := m.m_handle

/-- `explicit operator ErlNifMutex*() &&` (line 67): `m_handle.release()`
— yields the stored raw handle and leaves the wrapper holding null. -/
def Mutex.release (m : Mutex) : Ptr × Mutex := (m.m_handle, ⟨none⟩)

/-- `Mutex::lock` (line 74): exactly `enif_mutex_lock(m_handle.get())`. -/
def Mutex.lock (m : Mutex) : Mutex × List HostCall :=
  (m, [HostCall.mutex_lock m.m_handle])

/-- `Mutex::unlock` (line 79): exactly `enif_mutex_unlock(m_handle.get())`. -/
def Mutex.unlock (m : Mutex) : Mutex × List HostCall :=
  (m, [HostCall.mutex_unlock m.m_handle])

/-- `Mutex::try_lock` (line 85): returns
`enif_mutex_trylock(m_handle.get()) == 0`. -/
def Mutex.try_lock (ret : HostRet) (m : Mutex) : Bool × Mutex × List HostCall :=
  (decide (ret (HostCall.mutex_trylock m.m_handle) = 0), m,
    [HostCall.mutex_trylock m.m_handle])

/-- The `Mutex` destructor (via `std::unique_ptr` with `Deleter`,
lines 88-93): calls `enif_mutex_destroy` on the stored handle exactly when
it is non-null. -/
def Mutex.destructorCalls (m : Mutex) : List HostCall :=
  match m.m_handle with
  | none => []
  | some h => [HostCall.mutex_destroy (some h)]

/-- The locking operations a `Mutex` consumer can issue. -/
inductive MutexOp where
  | lockOp
  | unlockOp
  | tryLockOp
deriving DecidableEq, Repr

/-- The single host call that `MutexOp` issues on handle `p`. -/
def MutexOp.callFor : MutexOp → Ptr → HostCall
  | MutexOp.lockOp, p => HostCall.mutex_lock p
  | MutexOp.unlockOp, p => HostCall.mutex_unlock p
  | MutexOp.tryLockOp, p => HostCall.mutex_trylock p

/-- One step of a `Mutex` operation: the successor state and the host calls
issued. -/
def Mutex.step (ret : HostRet) (m : Mutex) : MutexOp → Mutex × List HostCall
  | MutexOp.lockOp => m.lock
  | MutexOp.unlockOp => m.unlock
  | MutexOp.tryLockOp => (m.try_lock ret).2

/-- Run a sequence of `Mutex` operations, collecting the host-call trace. -/
def Mutex.runOps (ret : HostRet) : Mutex → List MutexOp → Mutex × List HostCall
  | m, [] => (m, [])
  | m, op :: ops =>
    let s := m.step ret op
    let r := Mutex.runOps ret s.1 ops
    (r.1, s.2 ++ r.2)

/-! ## SharedMutex (`class SharedMutex`, sync.hpp lines 100-196) -/

/-- The wrapper state of `class SharedMutex`: its only data member is
`std::unique_ptr<ErlNifRWLock, Deleter> m_handle`. -/
structure SharedMutex where
  m_handle : Ptr
deriving DecidableEq, Repr

/-- `SharedMutex::SharedMutex()` (lines 103-107): calls
`enif_rwlock_create(nullptr)`; throws `"failed to create rwlock"` when the
returned handle is null. -/
def SharedMutex.mk_unnamed (create : Option String → Ptr) :
    Except String SharedMutex :=
  match create none with
  | none => Except.error "failed to create rwlock"
  | some h => Except.ok ⟨some h⟩

/-- `SharedMutex::SharedMutex(ErlNifRWLock*)` (line 110): adopts the given
handle with no null check and cannot fail. -/
def SharedMutex.fromHandle (h : Ptr) : SharedMutex := ⟨h⟩

/-- `SharedMutex::SharedMutex(app, type, instance)` (lines 113-132): same
stream-built debug name, passed to `enif_rwlock_create`; throws
`"failed to create rwlock"` on a null result. -/
def SharedMutex.mk_named (create : Option String → Ptr) (app ty : String)
    (inst : Option String) : Except String SharedMutex :=
  match create (some (mkStreamName app ty inst)) with
  | none => Except.error "failed to create rwlock"
  | some h => Except.ok ⟨some h⟩

/-- `operator ErlNifRWLock*() const &` (line 137). -/
def SharedMutex.toHandle (s : SharedMutex) : Ptr := s.m_handle

/-- `explicit operator ErlNifRWLock*() &&` (line 145): `m_handle.release()`. -/
def SharedMutex.release (s : SharedMutex) : Ptr × SharedMutex :=
  (s.m_handle, ⟨none⟩)

/-- `SharedMutex::lock_shared` (line 152): exactly
`enif_rwlock_rlock(m_handle.get())`. -/
def SharedMutex.lock_shared (s : SharedMutex) : SharedMutex × List HostCall :=
  (s, [HostCall.rwlock_rlock s.m_handle])

/-- `SharedMutex::unlock_shared` (line 158): exactly
`enif_rwlock_runlock(m_handle.get())`. -/
def SharedMutex.unlock_shared (s : SharedMutex) : SharedMutex × List HostCall :=
  (s, [HostCall.rwlock_runlock s.m_handle])

/-- `SharedMutex::lock` (line 165): exactly
`enif_rwlock_rwlock(m_handle.get())`. -/
def SharedMutex.lock (s : SharedMutex) : SharedMutex × List HostCall :=
  (s, [HostCall.rwlock_rwlock s.m_handle])

/-- `SharedMutex::unlock` (line 171): exactly
`enif_rwlock_rwunlock(m_handle.get())`. -/
def SharedMutex.unlock (s : SharedMutex) : SharedMutex × List HostCall :=
  (s, [HostCall.rwlock_rwunlock s.m_handle])

/-- `SharedMutex::try_lock_shared` (lines 176-178): returns
`enif_rwlock_tryrlock(m_handle.get()) == 0`. -/
def SharedMutex.try_lock_shared (ret : HostRet) (s : SharedMutex) :
    Bool × SharedMutex × List HostCall :=
  (decide (ret (HostCall.rwlock_tryrlock s.m_handle) = 0), s,
    [HostCall.rwlock_tryrlock s.m_handle])

/-- `SharedMutex::try_lock` (lines 185-187): returns
`enif_rwlock_tryrwlock(m_handle.get()) == 0`. -/
def SharedMutex.try_lock (ret : HostRet) (s : SharedMutex) :
    Bool × SharedMutex × List HostCall :=
  (decide (ret (HostCall.rwlock_tryrwlock s.m_handle) = 0), s,
    [HostCall.rwlock_tryrwlock s.m_handle])

/-- The `SharedMutex` destructor (via `std::unique_ptr` with `Deleter`,
lines 190-195): calls `enif_rwlock_destroy` on the stored handle exactly
when it is non-null. -/
def SharedMutex.destructorCalls (s : SharedMutex) : List HostCall :=
  match s.m_handle with
  | none => []
  | some h => [HostCall.rwlock_destroy (some h)]

/-- The locking operations a `SharedMutex` consumer can issue. -/
inductive SharedMutexOp where
  | lockSharedOp
  | unlockSharedOp
  | lockOp
  | unlockOp
  | tryLockSharedOp
  | tryLockOp
deriving DecidableEq, Repr

/-- The single host call that a `SharedMutexOp` issues on handle `p`. -/
def SharedMutexOp.callFor : SharedMutexOp → Ptr → HostCall
  | SharedMutexOp.lockSharedOp, p => HostCall.rwlock_rlock p
  | SharedMutexOp.unlockSharedOp, p => HostCall.rwlock_runlock p
  | SharedMutexOp.lockOp, p => HostCall.rwlock_rwlock p
  | SharedMutexOp.unlockOp, p => HostCall.rwlock_rwunlock p
  | SharedMutexOp.tryLockSharedOp, p => HostCall.rwlock_tryrlock p
  | SharedMutexOp.tryLockOp, p => HostCall.rwlock_tryrwlock p

/-- One step of a `SharedMutex` operation. -/
def SharedMutex.step (ret : HostRet) (s : SharedMutex) :
    SharedMutexOp → SharedMutex × List HostCall
  | SharedMutexOp.lockSharedOp => s.lock_shared
  | SharedMutexOp.unlockSharedOp => s.unlock_shared
  | SharedMutexOp.lockOp => s.lock
  | SharedMutexOp.unlockOp => s.unlock
  | SharedMutexOp.tryLockSharedOp => (s.try_lock_shared ret).2
  | SharedMutexOp.tryLockOp => (s.try_lock ret).2

/-- Run a sequence of `SharedMutex` operations, collecting the trace. -/
def SharedMutex.runOps (ret : HostRet) :
    SharedMutex → List SharedMutexOp → SharedMutex × List HostCall
  | s, [] => (s, [])
  | s, op :: ops =>
    let st := s.step ret op
    let r := SharedMutex.runOps ret st.1 ops
    (r.1, st.2 ++ r.2)

/-! ## ConditionVariable (`class ConditionVariable`, sync.hpp lines 201-302) -/

/-- The wrapper state of `class ConditionVariable`: its only data member is
`std::unique_ptr<ErlNifCond, Deleter> m_handle`. -/
structure ConditionVariable where
  m_handle : Ptr
deriving DecidableEq, Repr

/-- `ConditionVariable::ConditionVariable()` (lines 204-208): calls
`enif_cond_create(nullptr)`; throws `"failed to create cond"` when the
returned handle is null. -/
def ConditionVariable.mk_unnamed (create : Option String → Ptr) :
    Except String ConditionVariable :=
  match create none with
  | none => Except.error "failed to create cond"
  | some h => Except.ok ⟨some h⟩

/-- `ConditionVariable(ErlNifCond*)` (line 211): adopts the given handle
with no null check and cannot fail. -/
def ConditionVariable.fromHandle (h : Ptr) : ConditionVariable := ⟨h⟩

/-- `ConditionVariable(const char* name)` (lines 217-222): calls
`enif_cond_create(name)`; throws `"failed to create cond"` on null. -/
def ConditionVariable.mk_namedC (create : Option String → Ptr) (name : String) :
    Except String ConditionVariable :=
  match create (some name) with
  | none => Except.error "failed to create cond"
  | some h => Except.ok ⟨some h⟩

/-- `ConditionVariable(const std::string& name)` (lines 228-233): calls
`enif_cond_create(name.c_str())`; throws `"failed to create cond"` on
null. -/
def ConditionVariable.mk_namedS (create : Option String → Ptr) (name : String) :
    Except String ConditionVariable :=
  match create (some name) with
  | none => Except.error "failed to create cond"
  | some h => Except.ok ⟨some h⟩

/-- `operator ErlNifCond*() const &` (line 238). -/
def ConditionVariable.toHandle (c : ConditionVariable) : Ptr := c.m_handle

/-- `explicit operator ErlNifCond*() &&` (line 246): `m_handle.release()`. -/
def ConditionVariable.release (c : ConditionVariable) : Ptr × ConditionVariable :=
  (c.m_handle, ⟨none⟩)

/-- `ConditionVariable::notify_all` (line 253): exactly
`enif_cond_broadcast(m_handle.get())`. -/
def ConditionVariable.notify_all (c : ConditionVariable) :
    ConditionVariable × List HostCall :=
  (c, [HostCall.cond_broadcast c.m_handle])

/-- `ConditionVariable::notify_one` (line 259): exactly
`enif_cond_signal(m_handle.get())`. -/
def ConditionVariable.notify_one (c : ConditionVariable) :
    ConditionVariable × List HostCall :=
  (c, [HostCall.cond_signal c.m_handle])

/-- `ConditionVariable::wait(std::unique_lock<Mutex>&)` (lines 278-280), the
raw form: exactly `enif_cond_wait(m_handle.get(), *lock.mutex())`, where
`mtx` is the raw handle of the mutex owned by the passed lock. -/
def ConditionVariable.wait_raw (c : ConditionVariable) (mtx : Ptr) :
    ConditionVariable × List HostCall :=
  (c, [HostCall.cond_wait c.m_handle mtx])

/-- The `ConditionVariable` destructor (via `std::unique_ptr` with
`Deleter`, lines 298-300): calls `enif_cond_destroy` on the stored handle
exactly when it is non-null. -/
def ConditionVariable.destructorCalls (c : ConditionVariable) : List HostCall :=
  match c.m_handle with
  | none => []
  | some h => [HostCall.cond_destroy (some h)]

/-- The operations a `ConditionVariable` consumer can issue (the raw wait
carries the handle of the paired mutex). -/
inductive CondOp where
  | notifyOneOp
  | notifyAllOp
  | waitRawOp : Ptr → CondOp
deriving DecidableEq, Repr

/-- The single host call that a `CondOp` issues on handle `p`. -/
def CondOp.callFor : CondOp → Ptr → HostCall
  | CondOp.notifyOneOp, p => HostCall.cond_signal p
  | CondOp.notifyAllOp, p => HostCall.cond_broadcast p
  | CondOp.waitRawOp mtx, p => HostCall.cond_wait p mtx

/-- One step of a `ConditionVariable` operation. -/
def ConditionVariable.step (c : ConditionVariable) :
    CondOp → ConditionVariable × List HostCall
  | CondOp.notifyOneOp => c.notify_one
  | CondOp.notifyAllOp => c.notify_all
  | CondOp.waitRawOp mtx => c.wait_raw mtx

/-- Run a sequence of `ConditionVariable` operations, collecting the
trace. -/
def ConditionVariable.runOps :
    ConditionVariable → List CondOp → ConditionVariable × List HostCall
  | c, [] => (c, [])
  | c, op :: ops =>
    let st := c.step op
    let r := ConditionVariable.runOps st.1 ops
    (r.1, st.2 ++ r.2)

/-! ## The guarded wait loop

`ConditionVariable::wait(std::unique_lock<Mutex>&, Predicate)`
(lines 290-295) is
`while (!pred()) { enif_cond_wait(m_handle.get(), *lock.mutex()); }`.

The loop is modelled over the sequence of predicate evaluation results:
`evals k` is the boolean returned by the k-th call of `pred()` (the
protected state may change arbitrarily while the lock is released inside
`enif_cond_wait`, so an arbitrary boolean sequence covers every
interleaving, spurious wakeups included).  A run of the loop is recorded
as a trace of events; the raw wait is decomposed into release, block,
reacquire, which is the behaviour of the host wait call — modelled from
the spec, which states that the raw wait atomically releases the paired
lock, blocks, and reacquires the lock before returning. -/

/-- Events of a guarded-wait run: a predicate evaluation with its result,
and the three phases of one raw wait. -/
inductive WEvent where
  | evalPred : Bool → WEvent
  | releaseLock
  | blockCtx
  | reacquireLock
deriving DecidableEq, Repr

/-- The trace of `wait(lock, pred)` run with predicate results `evals`,
starting at the k-th evaluation, with `fuel` bounding the number of loop
iterations still considered (`none` when the loop does not exit within
`fuel` iterations).  Each false evaluation is followed by exactly one raw
wait (release, block, reacquire); a true evaluation ends the run. -/
def waitTrace (evals : Nat → Bool) : Nat → Nat → Option (List WEvent)
  | 0, _ => none
  | fuel + 1, k =>
    if evals k then
      some [WEvent.evalPred true]
    else
      match waitTrace evals fuel (k + 1) with
      | none => none
      | some t => some (WEvent.evalPred false :: WEvent.releaseLock ::
          WEvent.blockCtx :: WEvent.reacquireLock :: t)

/-- The canonical trace of a run that sees `c` false evaluations before the
first true one. -/
def builtTrace : Nat → List WEvent
  | 0 => [WEvent.evalPred true]
  | c + 1 => WEvent.evalPred false :: WEvent.releaseLock :: WEvent.blockCtx ::
      WEvent.reacquireLock :: builtTrace c

/-- Tracks the lock through a trace: `b` is whether the calling context
holds the paired lock before the first event; the result is whether it
holds the lock after the last event. -/
def lockHeldAfter : Bool → List WEvent → Bool
  | b, [] => b
  | _, WEvent.releaseLock :: rest => lockHeldAfter false rest
  | _, WEvent.reacquireLock :: rest => lockHeldAfter true rest
  | b, WEvent.evalPred _ :: rest => lockHeldAfter b rest
  | b, WEvent.blockCtx :: rest => lockHeldAfter b rest

/-- Checks that every predicate evaluation in the trace happens while the
calling context holds the paired lock (`b` is the lock state before the
first event). -/
def evalsUnderLock : Bool → List WEvent → Bool
  | _, [] => true
  | b, WEvent.evalPred _ :: rest => b && evalsUnderLock b rest
  | _, WEvent.releaseLock :: rest => evalsUnderLock false rest
  | _, WEvent.reacquireLock :: rest => evalsUnderLock true rest
  | b, WEvent.blockCtx :: rest => evalsUnderLock b rest

theorem waitTrace_shape (evals : Nat → Bool) :
    ∀ fuel k t, waitTrace evals fuel k = some t →
      ∃ c, t = builtTrace c ∧ (∀ i, i < c → evals (k + i) = false) ∧
        evals (k + c) = true := by
  intro fuel
  induction fuel with
  | zero => intro k t h; simp [waitTrace] at h
  | succ n ih =>
    intro k t h
    by_cases hk : evals k
    · refine ⟨0, ?_, ?_, ?_⟩
      · rw [waitTrace, if_pos hk] at h
        exact (Option.some_injective _ h).symm
      · intro i hi; omega
      · simpa using hk
    · rw [waitTrace, if_neg hk] at h
      cases hw : waitTrace evals n (k + 1) with
      | none => rw [hw] at h; cases h
      | some t' =>
        rw [hw] at h
        obtain ⟨c, hc, hfalse, htrue⟩ := ih (k + 1) t' hw
        refine ⟨c + 1, ?_, ?_, ?_⟩
        · rw [← (Option.some_injective _ h), hc]; rfl
        · intro i hi
          cases i with
          | zero => simpa using hk
          | succ j =>
            have hj := hfalse j (by omega)
            rwa [show k + 1 + j = k + (j + 1) by omega] at hj
        · rwa [show k + 1 + c = k + (c + 1) by omega] at htrue

theorem builtTrace_getLast (c : Nat) :
    (builtTrace c).getLast? = some (WEvent.evalPred true) := by
  induction c with
  | zero => rfl
  | succ n ih =>
    rw [builtTrace]
    rw [List.getLast?_cons_cons, List.getLast?_cons_cons,
      List.getLast?_cons_cons]
    cases hb : builtTrace n with
    | nil => rw [hb] at ih; cases ih
    | cons e rest => rw [List.getLast?_cons_cons, ← hb]; exact ih

theorem builtTrace_evalsUnderLock (c : Nat) :
    evalsUnderLock true (builtTrace c) = true := by
  induction c with
  | zero => rfl
  | succ n ih => simpa [builtTrace, evalsUnderLock] using ih

theorem builtTrace_lockHeldAfter (c : Nat) :
    lockHeldAfter true (builtTrace c) = true := by
  induction c with
  | zero => rfl
  | succ n ih => simpa [builtTrace, lockHeldAfter] using ih

theorem builtTrace_count_block (c : Nat) :
    (builtTrace c).count WEvent.blockCtx = c := by
  induction c with
  | zero => rfl
  | succ n ih => simp [builtTrace, List.count_cons, ih]

theorem builtTrace_count_falseEval (c : Nat) :
    (builtTrace c).count (WEvent.evalPred false) = c := by
  induction c with
  | zero => rfl
  | succ n ih => simp [builtTrace, List.count_cons, ih]

/-! ## Shared helper lemmas -/

/-- The behaviour common to every allocating constructor in sync.hpp:
`result` reports an error exactly when the host create call returned a null
handle (`created = none`), and on success the constructed object is `mk h`
for the created handle `h`. -/
def ctorSpec {α : Type} (result : Except String α) (created : Ptr)
    (mk : Nat → α) : Prop :=
  (reportsError result = true ↔ created = none) ∧
  ∀ h, created = some h → result = Except.ok (mk h)

theorem ctorSpec_of {α : Type} (p : Ptr) (e : String) (mk : Nat → α) :
    ctorSpec (match p with
      | none => Except.error e
      | some h => Except.ok (mk h)) p mk := by
  constructor
  · cases p <;> simp [reportsError]
  · intro h hp
    subst hp
    rfl

theorem mutexRunOps_delegates (ret : HostRet) (m : Mutex) :
    ∀ ops, Mutex.runOps ret m ops =
      (m, ops.map (fun op => MutexOp.callFor op m.m_handle)) := by
  intro ops
  induction ops with
  | nil => rfl
  | cons op ops ih =>
    cases op <;>
      simp [Mutex.runOps, Mutex.step, Mutex.lock, Mutex.unlock,
        Mutex.try_lock, MutexOp.callFor, ih]

theorem sharedRunOps_delegates (ret : HostRet) (s : SharedMutex) :
    ∀ ops, SharedMutex.runOps ret s ops =
      (s, ops.map (fun op => SharedMutexOp.callFor op s.m_handle)) := by
  intro ops
  induction ops with
  | nil => rfl
  | cons op ops ih =>
    cases op <;>
      simp [SharedMutex.runOps, SharedMutex.step, SharedMutex.lock_shared,
        SharedMutex.unlock_shared, SharedMutex.lock, SharedMutex.unlock,
        SharedMutex.try_lock_shared, SharedMutex.try_lock,
        SharedMutexOp.callFor, ih]

theorem condRunOps_delegates (c : ConditionVariable) :
    ∀ ops, ConditionVariable.runOps c ops =
      (c, ops.map (fun op => CondOp.callFor op c.m_handle)) := by
  intro ops
  induction ops with
  | nil => rfl
  | cons op ops ih =>
    cases op <;>
      simp [ConditionVariable.runOps, ConditionVariable.step,
        ConditionVariable.notify_one, ConditionVariable.notify_all,
        ConditionVariable.wait_raw, CondOp.callFor, ih]

/-- C1: `ConditionVariable::wait(lock, pred)` repeatedly evaluates the
predicate and, whenever an evaluation is false, performs exactly one raw
wait (release lock, block, reacquire lock) and re-evaluates; every
evaluation happens with the paired lock held; when the call returns, the
final event is a true predicate evaluation, the lock is held, the number
of raw waits equals the number of false evaluations, every evaluation
before the last was false and the last was true — so the call never
returns with the predicate false, for every evaluation-result sequence
(hence every interleaving, spurious wakeups included). -/
theorem C1_guarded_wait_correct (evals : Nat → Bool) (fuel : Nat)
    (t : List WEvent) (h : waitTrace evals fuel 0 = some t) :
    t.getLast? = some (WEvent.evalPred true) ∧
    evalsUnderLock true t = true ∧
    lockHeldAfter true t = true ∧
    t.count WEvent.blockCtx = t.count (WEvent.evalPred false) ∧
    (∀ i, i < t.count WEvent.blockCtx → evals i = false) ∧
    evals (t.count WEvent.blockCtx) = true := by
  obtain ⟨c, hc, hfalse, htrue⟩ := waitTrace_shape evals fuel 0 t h
  subst hc
  rw [builtTrace_count_block, builtTrace_count_falseEval]
  refine ⟨builtTrace_getLast c, builtTrace_evalsUnderLock c,
    builtTrace_lockHeldAfter c, rfl, ?_, ?_⟩
  · intro i hi
    simpa using hfalse i hi
  · simpa using htrue

/-- Concrete run for C1: the predicate becomes true at its third
evaluation, so the loop performs two raw waits and exits with the
predicate true under the lock. -/
def wTraceTwo : List WEvent :=
  [WEvent.evalPred false, WEvent.releaseLock, WEvent.blockCtx,
   WEvent.reacquireLock, WEvent.evalPred false, WEvent.releaseLock,
   WEvent.blockCtx, WEvent.reacquireLock, WEvent.evalPred true]

/-- Witness for C1 at the concrete run `wTraceTwo`. -/
theorem C1_guarded_wait_correct_witness :
    waitTrace (fun i => decide (2 ≤ i)) 4 0 = some wTraceTwo ∧
    (wTraceTwo.getLast? = some (WEvent.evalPred true) ∧
     evalsUnderLock true wTraceTwo = true ∧
     lockHeldAfter true wTraceTwo = true ∧
     wTraceTwo.count WEvent.blockCtx = wTraceTwo.count (WEvent.evalPred false) ∧
     (∀ i, i < wTraceTwo.count WEvent.blockCtx → decide (2 ≤ i) = false) ∧
     decide (2 ≤ wTraceTwo.count WEvent.blockCtx) = true) :=
  ⟨by decide, C1_guarded_wait_correct (fun i => decide (2 ≤ i)) 4 wTraceTwo
    (by decide)⟩

/-- C10: when the predicate is true at its first evaluation,
`wait(lock, pred)` returns immediately: the run is the single true
evaluation, with no block and no lock release — so no notify is needed for
the call to return. -/
theorem C10_true_pred_returns_immediately (evals : Nat → Bool) (fuel : Nat)
    (h0 : evals 0 = true) :
    waitTrace evals (fuel + 1) 0 = some [WEvent.evalPred true] ∧
    (∀ t, waitTrace evals (fuel + 1) 0 = some t →
      t.count WEvent.blockCtx = 0 ∧ t.count WEvent.releaseLock = 0) := by
  have h1 : waitTrace evals (fuel + 1) 0 = some [WEvent.evalPred true] := by
    rw [waitTrace, if_pos h0]
  refine ⟨h1, ?_⟩
  intro t ht
  rw [h1] at ht
  cases Option.some_injective _ ht
  exact ⟨rfl, rfl⟩

/-- Witness for C10 with an always-true predicate. -/
theorem C10_true_pred_returns_immediately_witness :
    (fun _ : Nat => true) 0 = true ∧
    (waitTrace (fun _ : Nat => true) (0 + 1) 0 = some [WEvent.evalPred true] ∧
     (∀ t, waitTrace (fun _ : Nat => true) (0 + 1) 0 = some t →
       t.count WEvent.blockCtx = 0 ∧ t.count WEvent.releaseLock = 0)) :=
  ⟨rfl, C10_true_pred_returns_immediately (fun _ => true) 0 rfl⟩

/-- C2: for each of the three primitives, every allocating constructor
(unnamed Mutex and SharedMutex, named Mutex and SharedMutex, unnamed
ConditionVariable, ConditionVariable named via a C string or via a
std::string) reports a creation error exactly when the host create call
returns a null handle; on success the constructed wrapper owns the created
handle; the error is returned to the constructing context, never silently
dropped. -/
theorem C2_creation_error_iff_null_handle (mc rc cc : Option String → Ptr)
    (app ty : String) (inst : Option String) (nm : String) :
    ctorSpec (Mutex.mk_unnamed mc) (mc none) (fun h => ⟨some h⟩) ∧
    ctorSpec (Mutex.mk_named mc app ty inst)
      (mc (some (mkStreamName app ty inst))) (fun h => ⟨some h⟩) ∧
    ctorSpec (SharedMutex.mk_unnamed rc) (rc none) (fun h => ⟨some h⟩) ∧
    ctorSpec (SharedMutex.mk_named rc app ty inst)
      (rc (some (mkStreamName app ty inst))) (fun h => ⟨some h⟩) ∧
    ctorSpec (ConditionVariable.mk_unnamed cc) (cc none) (fun h => ⟨some h⟩) ∧
    ctorSpec (ConditionVariable.mk_namedC cc nm) (cc (some nm))
      (fun h => ⟨some h⟩) ∧
    ctorSpec (ConditionVariable.mk_namedS cc nm) (cc (some nm))
      (fun h => ⟨some h⟩) :=
  ⟨ctorSpec_of (mc none) "failed to create mutex"
     (fun h => Mutex.mk (some h)),
   ctorSpec_of (mc (some (mkStreamName app ty inst))) "failed to create mutex"
     (fun h => Mutex.mk (some h)),
   ctorSpec_of (rc none) "failed to create rwlock"
     (fun h => SharedMutex.mk (some h)),
   ctorSpec_of (rc (some (mkStreamName app ty inst)))
     "failed to create rwlock" (fun h => SharedMutex.mk (some h)),
   ctorSpec_of (cc none) "failed to create cond"
     (fun h => ConditionVariable.mk (some h)),
   ctorSpec_of (cc (some nm)) "failed to create cond"
     (fun h => ConditionVariable.mk (some h)),
   ctorSpec_of (cc (some nm)) "failed to create cond"
     (fun h => ConditionVariable.mk (some h))⟩

/-- Witness for C2: a host that allocates handle 1 yields a wrapper owning
handle 1; a host that returns null makes the unnamed constructor report the
error. -/
theorem C2_creation_error_iff_null_handle_witness :
    Mutex.mk_unnamed (fun _ => some 1) = Except.ok ⟨some 1⟩ ∧
    reportsError (ConditionVariable.mk_unnamed (fun _ => none)) = true :=
  ⟨(C2_creation_error_iff_null_handle (fun _ => some 1) (fun _ => some 1)
      (fun _ => some 1) "app" "ty" none "nm").1.2 1 rfl,
   (C2_creation_error_iff_null_handle (fun _ => none) (fun _ => none)
      (fun _ => none) "app" "ty" none "nm").2.2.2.2.1.1.mpr rfl⟩

/-- C3: for each wrapper, rvalue extraction yields the owned handle and
leaves the wrapper holding null; a second extraction yields null; after
extraction the wrapper destructor destroys nothing, while an unextracted
wrapper destructor destroys the handle exactly once — so, whether the
extracting caller destroys the extracted handle (running the same deleter)
or the wrapper is destroyed unextracted, the handle is destroyed exactly
once overall. -/
theorem C3_extraction_at_most_once (h hs hc : Nat) :
    Mutex.release ⟨some h⟩ = (some h, ⟨none⟩) ∧
    (Mutex.release (Mutex.release ⟨some h⟩).2).1 = none ∧
    Mutex.destructorCalls (Mutex.release ⟨some h⟩).2 = [] ∧
    Mutex.destructorCalls ⟨some h⟩ = [HostCall.mutex_destroy (some h)] ∧
    (Mutex.destructorCalls ⟨(Mutex.release ⟨some h⟩).1⟩ ++
      Mutex.destructorCalls (Mutex.release ⟨some h⟩).2).length = 1 ∧
    (Mutex.destructorCalls ⟨some h⟩).length = 1 ∧
    SharedMutex.release ⟨some hs⟩ = (some hs, ⟨none⟩) ∧
    (SharedMutex.release (SharedMutex.release ⟨some hs⟩).2).1 = none ∧
    SharedMutex.destructorCalls (SharedMutex.release ⟨some hs⟩).2 = [] ∧
    SharedMutex.destructorCalls ⟨some hs⟩ =
      [HostCall.rwlock_destroy (some hs)] ∧
    (SharedMutex.destructorCalls ⟨(SharedMutex.release ⟨some hs⟩).1⟩ ++
      SharedMutex.destructorCalls (SharedMutex.release ⟨some hs⟩).2).length = 1 ∧
    (SharedMutex.destructorCalls ⟨some hs⟩).length = 1 ∧
    ConditionVariable.release ⟨some hc⟩ = (some hc, ⟨none⟩) ∧
    (ConditionVariable.release (ConditionVariable.release ⟨some hc⟩).2).1 =
      none ∧
    ConditionVariable.destructorCalls (ConditionVariable.release ⟨some hc⟩).2 =
      [] ∧
    ConditionVariable.destructorCalls ⟨some hc⟩ =
      [HostCall.cond_destroy (some hc)] ∧
    (ConditionVariable.destructorCalls
        ⟨(ConditionVariable.release ⟨some hc⟩).1⟩ ++
      ConditionVariable.destructorCalls
        (ConditionVariable.release ⟨some hc⟩).2).length = 1 ∧
    (ConditionVariable.destructorCalls ⟨some hc⟩).length = 1 :=
  ⟨rfl, rfl, rfl, rfl, rfl, rfl, rfl, rfl, rfl, rfl, rfl, rfl, rfl, rfl,
   rfl, rfl, rfl, rfl⟩

/-- Spec-side definition of the debug identifier format, following the
words of the spec: `app.type` with no instance, `app.type[instance]` with
one. -/
def specDebugId (app ty : String) (inst : Option String) : String :=
  match inst with
  | none => app ++ "." ++ ty
  | some i => app ++ "." ++ ty ++ "[" ++ i ++ "]"

/-- C5: for every app, type and optional instance string, the string the
named Mutex and SharedMutex constructors build and pass to the host create
call is exactly the identifier the spec states, and a host that allocates
under exactly that identifier makes those constructors succeed with the
created handle. -/
theorem C5_debug_identifier_format (app ty : String) (inst : Option String) :
    mkStreamName app ty inst = specDebugId app ty inst ∧
    (∀ create h, create (some (specDebugId app ty inst)) = some h →
      Mutex.mk_named create app ty inst = Except.ok ⟨some h⟩) ∧
    (∀ create h, create (some (specDebugId app ty inst)) = some h →
      SharedMutex.mk_named create app ty inst = Except.ok ⟨some h⟩) := by
  have hname : mkStreamName app ty inst = specDebugId app ty inst := by
    cases inst <;> rfl
  refine ⟨hname, ?_, ?_⟩
  · intro create h hcreate
    rw [Mutex.mk_named, hname, hcreate]
  · intro create h hcreate
    rw [SharedMutex.mk_named, hname, hcreate]

/-- Witness for C5 at concrete strings and a concrete host allocation. -/
theorem C5_debug_identifier_format_witness :
    specDebugId "fine" "cache" (some "tiles") = "fine.cache[tiles]" ∧
    mkStreamName "fine" "cache" (some "tiles") =
      specDebugId "fine" "cache" (some "tiles") ∧
    Mutex.mk_named (fun _ => some 9) "fine" "cache" none =
      Except.ok ⟨some 9⟩ :=
  ⟨rfl, (C5_debug_identifier_format "fine" "cache" (some "tiles")).1,
   (C5_debug_identifier_format "fine" "cache" none).2.1
     (fun _ => some 9) 9 rfl⟩

/-- C6: the three try operations return true exactly when the host trylock
call on the owned handle returns 0, false otherwise; each issues that one
host call (a non-blocking, non-failing call) and leaves the wrapper
unchanged. -/
theorem C6_trylock_iff_host_zero (ret : HostRet) (m : Mutex)
    (s : SharedMutex) :
    ((m.try_lock ret).1 = true ↔
      ret (HostCall.mutex_trylock m.m_handle) = 0) ∧
    ((s.try_lock ret).1 = true ↔
      ret (HostCall.rwlock_tryrwlock s.m_handle) = 0) ∧
    ((s.try_lock_shared ret).1 = true ↔
      ret (HostCall.rwlock_tryrlock s.m_handle) = 0) ∧
    ((m.try_lock ret).1 = false ↔
      ¬ret (HostCall.mutex_trylock m.m_handle) = 0) ∧
    ((s.try_lock ret).1 = false ↔
      ¬ret (HostCall.rwlock_tryrwlock s.m_handle) = 0) ∧
    ((s.try_lock_shared ret).1 = false ↔
      ¬ret (HostCall.rwlock_tryrlock s.m_handle) = 0) ∧
    m.try_lock ret =
      ((m.try_lock ret).1, m, [HostCall.mutex_trylock m.m_handle]) ∧
    s.try_lock ret =
      ((s.try_lock ret).1, s, [HostCall.rwlock_tryrwlock s.m_handle]) ∧
    s.try_lock_shared ret =
      ((s.try_lock_shared ret).1, s,
        [HostCall.rwlock_tryrlock s.m_handle]) := by
  refine ⟨?_, ?_, ?_, ?_, ?_, ?_, rfl, rfl, rfl⟩ <;>
    simp [Mutex.try_lock, SharedMutex.try_lock, SharedMutex.try_lock_shared]

/-- C7: every locking operation of Mutex and SharedMutex is a pure
delegation — running any operation sequence leaves the wrapper state
(which consists of the handle alone) unchanged and issues exactly one host
call per operation, each the corresponding host entry point applied to the
owned handle. -/
theorem C7_pure_delegation (ret : HostRet) (m : Mutex) (s : SharedMutex)
    (mops : List MutexOp) (sops : List SharedMutexOp) :
    Mutex.runOps ret m mops =
      (m, mops.map (fun op => MutexOp.callFor op m.m_handle)) ∧
    SharedMutex.runOps ret s sops =
      (s, sops.map (fun op => SharedMutexOp.callFor op s.m_handle)) :=
  ⟨mutexRunOps_delegates ret m mops, sharedRunOps_delegates ret s sops⟩

/-- Witness for C3 at concrete handle 1: extraction yields the handle and
nulls the wrapper. -/
theorem C3_extraction_at_most_once_witness :
    Mutex.release ⟨some 1⟩ = (some 1, ⟨none⟩) :=
  (C3_extraction_at_most_once 1 2 3).1

/-- Witness for C6: with a host whose trylock returns 0, try_lock returns
true. -/
theorem C6_trylock_iff_host_zero_witness :
    (Mutex.try_lock (fun _ => 0) ⟨some 1⟩).1 = true :=
  (C6_trylock_iff_host_zero (fun _ => 0) ⟨some 1⟩ ⟨some 2⟩).1.mpr rfl

/-- Witness for C7: a lock followed by an unlock issues exactly those two
host calls on the owned handle and leaves the wrapper unchanged. -/
theorem C7_pure_delegation_witness :
    Mutex.runOps (fun _ => 0) ⟨some 1⟩ [MutexOp.lockOp, MutexOp.unlockOp] =
      (⟨some 1⟩, [HostCall.mutex_lock (some 1),
        HostCall.mutex_unlock (some 1)]) :=
  (C7_pure_delegation (fun _ => 0) ⟨some 1⟩ ⟨some 2⟩
    [MutexOp.lockOp, MutexOp.unlockOp] []).1

/-- Counterexample to C4: the adopt-an-existing-handle constructor
(`Mutex::Mutex(ErlNifMutex*)`, line 32) performs no null check, so the
wrapper built by adopting a null pointer stores a null handle from the
moment of construction, though no ownership was ever extracted from it —
refuting the claim that every instance of every constructor has a non-null
handle for its entire lifetime unless extracted. -/
theorem C4_counterexample_adopt_null :
    (Mutex.fromHandle none).m_handle = none := rfl

/-- C4 (amended): wrappers built by the allocating constructors (which
null-check the created handle), and wrappers built by the adopt
constructor from a non-null handle, have a non-null stored handle; and no
locking, unlocking, try-locking, notify or wait operation ever changes the
stored handle, so the handle stays non-null for the entire lifetime until
ownership is extracted. -/
theorem C4_handle_nonnull_amended (create : Option String → Ptr)
    (ret : HostRet) (app ty : String) (inst : Option String) (nm : String)
    (h : Nat) :
    (∀ m, Mutex.mk_unnamed create = Except.ok m → m.m_handle ≠ none) ∧
    (∀ m, Mutex.mk_named create app ty inst = Except.ok m →
      m.m_handle ≠ none) ∧
    (Mutex.fromHandle (some h)).m_handle ≠ none ∧
    (∀ (m : Mutex) ops, (Mutex.runOps ret m ops).1 = m) ∧
    (∀ s, SharedMutex.mk_unnamed create = Except.ok s → s.m_handle ≠ none) ∧
    (∀ s, SharedMutex.mk_named create app ty inst = Except.ok s →
      s.m_handle ≠ none) ∧
    (SharedMutex.fromHandle (some h)).m_handle ≠ none ∧
    (∀ (s : SharedMutex) ops, (SharedMutex.runOps ret s ops).1 = s) ∧
    (∀ c, ConditionVariable.mk_unnamed create = Except.ok c →
      c.m_handle ≠ none) ∧
    (∀ c, ConditionVariable.mk_namedC create nm = Except.ok c →
      c.m_handle ≠ none) ∧
    (∀ c, ConditionVariable.mk_namedS create nm = Except.ok c →
      c.m_handle ≠ none) ∧
    (ConditionVariable.fromHandle (some h)).m_handle ≠ none ∧
    (∀ (c : ConditionVariable) ops,
      (ConditionVariable.runOps c ops).1 = c) := by
  refine ⟨?_, ?_, by simp [Mutex.fromHandle], ?_, ?_, ?_,
    by simp [SharedMutex.fromHandle], ?_, ?_, ?_, ?_,
    by simp [ConditionVariable.fromHandle], ?_⟩
  · intro m hm
    cases hx : create none with
    | none => simp [Mutex.mk_unnamed, hx] at hm
    | some h2 =>
      simp only [Mutex.mk_unnamed, hx] at hm
      cases hm
      simp
  · intro m hm
    cases hx : create (some (mkStreamName app ty inst)) with
    | none => simp [Mutex.mk_named, hx] at hm
    | some h2 =>
      simp only [Mutex.mk_named, hx] at hm
      cases hm
      simp
  · intro m ops
    simp [mutexRunOps_delegates]
  · intro s hsk
    cases hx : create none with
    | none => simp [SharedMutex.mk_unnamed, hx] at hsk
    | some h2 =>
      simp only [SharedMutex.mk_unnamed, hx] at hsk
      cases hsk
      simp
  · intro s hsk
    cases hx : create (some (mkStreamName app ty inst)) with
    | none => simp [SharedMutex.mk_named, hx] at hsk
    | some h2 =>
      simp only [SharedMutex.mk_named, hx] at hsk
      cases hsk
      simp
  · intro s ops
    simp [sharedRunOps_delegates]
  · intro c hck
    cases hx : create none with
    | none => simp [ConditionVariable.mk_unnamed, hx] at hck
    | some h2 =>
      simp only [ConditionVariable.mk_unnamed, hx] at hck
      cases hck
      simp
  · intro c hck
    cases hx : create (some nm) with
    | none => simp [ConditionVariable.mk_namedC, hx] at hck
    | some h2 =>
      simp only [ConditionVariable.mk_namedC, hx] at hck
      cases hck
      simp
  · intro c hck
    cases hx : create (some nm) with
    | none => simp [ConditionVariable.mk_namedS, hx] at hck
    | some h2 =>
      simp only [ConditionVariable.mk_namedS, hx] at hck
      cases hck
      simp
  · intro c ops
    simp [condRunOps_delegates]

/-- Witness for C4 (amended) at a host that allocates handle 5. -/
theorem C4_handle_nonnull_amended_witness :
    Mutex.mk_unnamed (fun _ => some 5) = Except.ok ⟨some 5⟩ ∧
    (⟨some 5⟩ : Mutex).m_handle ≠ none :=
  ⟨rfl, (C4_handle_nonnull_amended (fun _ => some 5) (fun _ => 0) "a" "t"
    none "n" 5).1 ⟨some 5⟩ rfl⟩

/-- C8: a debug name has no effect on behaviour — the wrapper stores no
name, so a named-constructed wrapper whose creation yielded handle `h`
equals the unnamed-constructed wrapper with the same handle, and every
operation sequence on the two produces identical results and identical
host calls; the name is not retrievable from the wrapper because wrappers
with equal handles are equal values. -/
theorem C8_debug_name_inert (createN createU : Option String → Ptr)
    (app ty : String) (inst : Option String) (nm : String) (h : Nat)
    (m mu : Mutex) (s su : SharedMutex) (c cu : ConditionVariable)
    (hm : Mutex.mk_named createN app ty inst = Except.ok m)
    (hmc : createN (some (mkStreamName app ty inst)) = some h)
    (hmu : Mutex.mk_unnamed createU = Except.ok mu)
    (hmuc : createU none = some h)
    (hs : SharedMutex.mk_named createN app ty inst = Except.ok s)
    (hsc : createN (some (mkStreamName app ty inst)) = some h)
    (hsu : SharedMutex.mk_unnamed createU = Except.ok su)
    (hsuc : createU none = some h)
    (hc : ConditionVariable.mk_namedC createN nm = Except.ok c)
    (hcc : createN (some nm) = some h)
    (hcu : ConditionVariable.mk_unnamed createU = Except.ok cu)
    (hcuc : createU none = some h) :
    m = mu ∧
    (∀ ret ops, Mutex.runOps ret m ops = Mutex.runOps ret mu ops) ∧
    s = su ∧
    (∀ ret ops, SharedMutex.runOps ret s ops =
      SharedMutex.runOps ret su ops) ∧
    c = cu ∧
    (∀ ops, ConditionVariable.runOps c ops =
      ConditionVariable.runOps cu ops) := by
  simp only [Mutex.mk_named, hmc] at hm
  simp only [Mutex.mk_unnamed, hmuc] at hmu
  simp only [SharedMutex.mk_named, hsc] at hs
  simp only [SharedMutex.mk_unnamed, hsuc] at hsu
  simp only [ConditionVariable.mk_namedC, hcc] at hc
  simp only [ConditionVariable.mk_unnamed, hcuc] at hcu
  cases hm
  cases hmu
  cases hs
  cases hsu
  cases hc
  cases hcu
  exact ⟨rfl, fun _ _ => rfl, rfl, fun _ _ => rfl, rfl, fun _ => rfl⟩

/-- Witness for C8: with a host that always allocates handle 7, the named
and unnamed wrappers coincide. -/
theorem C8_debug_name_inert_witness :
    Mutex.mk_named (fun _ => some 7) "a" "t" none = Except.ok ⟨some 7⟩ ∧
    ((⟨some 7⟩ : Mutex) = ⟨some 7⟩ ∧
     (∀ ret ops, Mutex.runOps ret ⟨some 7⟩ ops =
       Mutex.runOps ret ⟨some 7⟩ ops) ∧
     (⟨some 7⟩ : SharedMutex) = ⟨some 7⟩ ∧
     (∀ ret ops, SharedMutex.runOps ret ⟨some 7⟩ ops =
       SharedMutex.runOps ret ⟨some 7⟩ ops) ∧
     (⟨some 7⟩ : ConditionVariable) = ⟨some 7⟩ ∧
     (∀ ops, ConditionVariable.runOps ⟨some 7⟩ ops =
       ConditionVariable.runOps ⟨some 7⟩ ops)) :=
  ⟨rfl, C8_debug_name_inert (fun _ => some 7) (fun _ => some 7) "a" "t"
    none "n" 7 ⟨some 7⟩ ⟨some 7⟩ ⟨some 7⟩ ⟨some 7⟩ ⟨some 7⟩ ⟨some 7⟩
    rfl rfl rfl rfl rfl rfl rfl rfl rfl rfl rfl rfl⟩

/-! ## Mutual exclusion (C9)

`Mutex::lock` and `Mutex::unlock` delegate to `enif_mutex_lock` and
`enif_mutex_unlock`, which are part of the host runtime, not of this
repository; the spec assumes a native mutual-exclusion primitive with
blocking semantics.  The following transition system is therefore modelled
from the spec: contexts issue paired lock and unlock calls, the host mutex
grants the lock to one waiting context at a time when it is free and
records the owner, and unlock frees it. -/

/-- Modelled from the spec: the phase of one execution context using the
mutex — outside the locked region, blocked inside `Mutex::lock` waiting
for the host mutex, or inside the locked region. -/
inductive Phase where
  | outside
  | waiting
  | critical
deriving DecidableEq, Repr

/-- Modelled from the spec: the global state of `n` contexts sharing one
host mutex — the owner the host mutex records (`none` when free) and each
context phase. -/
structure SysState (n : Nat) where
  owner : Option (Fin n)
  phase : Fin n → Phase

/-- All contexts outside the locked region, mutex free. -/
def initState (n : Nat) : SysState n :=
  ⟨none, fun _ => Phase.outside⟩

/-- Modelled from the spec: one interleaved step — a context calls
`Mutex::lock` and starts waiting; the host mutex, when free, grants the
lock to one waiting context, which enters the locked region; a context in
the locked region calls `Mutex::unlock`, leaving the region and freeing
the mutex.  No fairness or ordering among waiting contexts is assumed. -/
inductive SysStep (n : Nat) : SysState n → SysState n → Prop where
  | callLock (s : SysState n) (i : Fin n) (h : s.phase i = Phase.outside) :
      SysStep n s
        ⟨s.owner, fun j => if j = i then Phase.waiting else s.phase j⟩
  | grant (s : SysState n) (i : Fin n) (h : s.phase i = Phase.waiting)
      (hfree : s.owner = none) :
      SysStep n s
        ⟨some i, fun j => if j = i then Phase.critical else s.phase j⟩
  | callUnlock (s : SysState n) (i : Fin n)
      (h : s.phase i = Phase.critical) :
      SysStep n s
        ⟨none, fun j => if j = i then Phase.outside else s.phase j⟩

/-- A state reachable from the initial state by interleaved steps. -/
def ReachableState (n : Nat) (s : SysState n) : Prop :=
  Relation.ReflTransGen (SysStep n) (initState n) s

/-- The inductive invariant: every context inside the locked region is the
recorded owner of the host mutex. -/
def MutexInv (n : Nat) (s : SysState n) : Prop :=
  ∀ j, s.phase j = Phase.critical → s.owner = some j

theorem MutexInv_init (n : Nat) : MutexInv n (initState n) := by
  intro j hj
  simp [initState] at hj

theorem MutexInv_step {n : Nat} {s t : SysState n} (hst : SysStep n s t)
    (hs : MutexInv n s) : MutexInv n t := by
  cases hst with
  | callLock i h =>
    intro j hj
    by_cases hji : j = i
    · subst hji
      simp at hj
    · simp only [if_neg hji] at hj
      exact hs j hj
  | grant i h hfree =>
    intro j hj
    by_cases hji : j = i
    · subst hji
      rfl
    · simp only [if_neg hji] at hj
      have := hs j hj
      rw [hfree] at this
      cases this
  | callUnlock i h =>
    intro j hj
    by_cases hji : j = i
    · subst hji
      simp at hj
    · simp only [if_neg hji] at hj
      have h1 := hs j hj
      have h2 := hs i h
      rw [h2] at h1
      exact absurd (Option.some_injective _ h1).symm hji

theorem MutexInv_reachable {n : Nat} {s : SysState n}
    (h : ReachableState n s) : MutexInv n s := by
  induction h with
  | refl => exact MutexInv_init n
  | tail hab hbc ih => exact MutexInv_step hbc ih

/-- C9: in every state reachable by interleaved lock and unlock steps of
concurrently executing contexts on one Mutex, at most one context is
inside the locked region. -/
theorem C9_mutual_exclusion (n : Nat) (s : SysState n)
    (h : ReachableState n s) (i j : Fin n)
    (hi : s.phase i = Phase.critical) (hj : s.phase j = Phase.critical) :
    i = j := by
  have hinv := MutexInv_reachable h
  have h1 := hinv i hi
  have h2 := hinv j hj
  rw [h1] at h2
  exact Option.some_injective _ h2

/-- Intermediate state for the C9 witness: context 0 has called lock and
is waiting. -/
def witMid : SysState 1 :=
  ⟨(initState 1).owner,
   fun j => if j = 0 then Phase.waiting else (initState 1).phase j⟩

/-- Final state for the C9 witness: context 0 holds the lock and is inside
the locked region. -/
def witEnd : SysState 1 :=
  ⟨some 0, fun j => if j = 0 then Phase.critical else witMid.phase j⟩

/-- Witness for C9: a concrete reachable state with a context inside the
locked region. -/
theorem C9_mutual_exclusion_witness :
    ReachableState 1 witEnd ∧ witEnd.phase 0 = Phase.critical ∧
    (0 : Fin 1) = 0 := by
  have hmid : witMid.phase 0 = Phase.waiting := by
    simp [witMid]
  have hreach : ReachableState 1 witEnd :=
    Relation.ReflTransGen.tail
      (Relation.ReflTransGen.tail Relation.ReflTransGen.refl
        (SysStep.callLock (initState 1) 0 rfl))
      (SysStep.grant witMid 0 hmid rfl)
  have hcrit : witEnd.phase 0 = Phase.critical := by
    simp [witEnd]
  exact ⟨hreach, hcrit, C9_mutual_exclusion 1 witEnd hreach 0 0 hcrit hcrit⟩

end Fine
